import Mathlib

/-!
Verification of the chat client's realtime synchronization core, embedded
shallowly from the TypeScript sources:

* `frontend/src/contexts/ChatContext.tsx` — the reducer-driven session
  state store (`chatReducer`), optimistic `sendMessage`, room membership
  transitions in `setCurrentChat`, manual `joinRoom` / `leaveRoom`, and
  `markConversationAsRead`;
* `frontend/src/services/websocket.ts` — the `WebSocketService`
  connection manager (connect / disconnect / reconnect, heartbeat
  watchdog, exponential backoff).

Timestamps (`created_at`, timer deadlines) are modelled as integer
milliseconds, matching the JavaScript `Date.getTime()` values the code
compares.  Effects on the outside world (socket creation, socket close,
timer scheduling, connection-status callbacks, wire frames) are returned
as explicit effect lists.
-/

/-- A chat message as held in the client store (interface `Message` in
`services/api.ts`: `id, from_user_id, content, message_type, created_at,
is_edited`).  `created_at` is in epoch milliseconds. -/
structure Message where
  id : String
  from_user_id : String
  content : String
  message_type : String
  created_at : Int
  is_edited : Bool
  deriving DecidableEq, Repr

/-- The temporary-id tag `"temp_"` used for optimistic messages. -/
def tempTag : String := "temp_"

/-- `String(msg.id).startsWith('temp_')`: whether a message carries a
client-generated temporary id.  Stated on the character list of the id,
which is what "starts with" means on the text. -/
def Message.isTemp (m : Message) : Bool :=
  tempTag.data.isPrefixOf m.id.data

/-- The duplicate test of the `ADD_MESSAGE` reducer case
(`ChatContext.tsx` lines 74–79): an existing message counts as a
duplicate of the incoming one if the ids are equal, or if content and
sender match and the `created_at` stamps are less than 3000 ms apart. -/
def isDuplicateOf (existing incoming : Message) : Bool :=
  existing.id == incoming.id ||
    (existing.content == incoming.content &&
     existing.from_user_id == incoming.from_user_id &&
     decide ((existing.created_at - incoming.created_at).natAbs < 3000))

/-- The temp-promotion filter condition of `ADD_MESSAGE`
(`ChatContext.tsx` lines 90–94): an existing message is removed when a
confirmed message arrives if it is temporary and matches the incoming
message's content and sender. -/
def matchesTempOf (incoming existing : Message) : Bool :=
  existing.isTemp && existing.content == incoming.content &&
    existing.from_user_id == incoming.from_user_id

/-- The `ADD_MESSAGE` case of `chatReducer` (`ChatContext.tsx` lines
69–107), acting on the `messages` field: skip if a duplicate exists;
otherwise, if the incoming message is server-confirmed (non-temp),
remove matching temporary messages; then append the incoming message. -/
def addMessage (msgs : List Message) (incoming : Message) : List Message :=
  if msgs.any (fun e => isDuplicateOf e incoming) then msgs
  else
    let filtered :=
      if incoming.isTemp then msgs
      else msgs.filter (fun e => !(matchesTempOf incoming e))
    filtered ++ [incoming]

-- Sanity checks on concrete inputs.
example :
    addMessage []
      { id := "m-1", from_user_id := "A", content := "hi",
        message_type := "text", created_at := 0, is_edited := false } =
      [{ id := "m-1", from_user_id := "A", content := "hi",
         message_type := "text", created_at := 0, is_edited := false }] := by
  decide

-- A server echo within the 3000 ms window is dropped by the duplicate
-- test, so the temporary message survives unreplaced.
example :
    addMessage
      [{ id := "temp_1", from_user_id := "A", content := "hi",
         message_type := "text", created_at := 0, is_edited := false }]
      { id := "m-42", from_user_id := "A", content := "hi",
        message_type := "text", created_at := 1000, is_edited := false } =
      [{ id := "temp_1", from_user_id := "A", content := "hi",
         message_type := "text", created_at := 0, is_edited := false }] := by
  decide

-- A server echo outside the window replaces the temporary message.
example :
    addMessage
      [{ id := "temp_1", from_user_id := "A", content := "hi",
         message_type := "text", created_at := 0, is_edited := false }]
      { id := "m-42", from_user_id := "A", content := "hi",
        message_type := "text", created_at := 5000, is_edited := false } =
      [{ id := "m-42", from_user_id := "A", content := "hi",
         message_type := "text", created_at := 5000, is_edited := false }] := by
  decide

/-- The chat target kind: `'private' | 'group' | 'room'` in the source. -/
inductive ChatType where
  | priv
  | group
  | room
  deriving DecidableEq, Repr

/-- The `currentChat` selection `{ id, type, name }` of `ChatState`. -/
structure CurrentChat where
  id : String
  ctype : ChatType
  name : String
  deriving DecidableEq, Repr

/-- A conversation list entry as the reducer's `MARK_CONVERSATION_READ`
case sees it: `chat_type`, `chat_id`, `unread_count`, plus display
fields the reducer leaves untouched. -/
structure Conversation where
  chat_id : String
  chat_type : String
  name : String
  last_message : Option Message
  unread_count : Nat
  deriving DecidableEq, Repr

/-- Frames written to the socket by `WebSocketService`'s send helpers.
Each carries the fields of the JSON frame that the claims talk about. -/
inductive OutFrame where
  | sendMsgFrame (chat_type : ChatType) (chat_id content message_type : String)
  | typingFrame (chat_type : ChatType) (chat_id : String) (is_typing : Bool)
  | joinRoomFrame (room_id : String)
  | leaveRoomFrame (room_id : String)
  | pingFrame
  deriving DecidableEq, Repr

/-- `WebSocketService.sendMessage` (`websocket.ts` lines 228–239): writes
the `send_message` frame only when the socket exists and is OPEN;
otherwise it logs an error to the console and writes nothing. -/
def wsSendMessage (wsOpen : Bool) (ct : ChatType) (cid content mtype : String) :
    List OutFrame :=
  if wsOpen then [OutFrame.sendMsgFrame ct cid content mtype] else []

/-- `WebSocketService.joinRoom` (`websocket.ts` lines 258–267): writes the
`join_room` frame only when the socket is OPEN. -/
def wsJoinRoom (wsOpen : Bool) (roomId : String) : List OutFrame :=
  if wsOpen then [OutFrame.joinRoomFrame roomId] else []

/-- `WebSocketService.leaveRoom` (`websocket.ts` lines 270–279): writes the
`leave_room` frame only when the socket is OPEN. -/
def wsLeaveRoom (wsOpen : Bool) (roomId : String) : List OutFrame :=
  if wsOpen then [OutFrame.leaveRoomFrame roomId] else []

/-- The slice of the session store that the send and mark-read paths
touch: the visible message list, the conversation list and the error
field. -/
structure ChatStore where
  messages : List Message
  conversations : List Conversation
  error : Option String
  deriving DecidableEq, Repr

/-- The optimistic message built by `sendMessage` (`ChatContext.tsx`
lines 414–421): temporary id `temp_<nonce>` (the code appends
`Date.now()` and `Math.random()`), the authenticated user as sender, the
current time stamp, not edited. -/
def mkOptimistic (userId content mtype : String) (now : Int) (nonce : String) :
    Message :=
  { id := tempTag ++ nonce, from_user_id := userId, content := content,
    message_type := mtype, created_at := now, is_edited := false }

/-- The inputs `sendMessage` reads from its closure: the current chat
ref, the authenticated user (after the ref-or-state fallback), the
clock and nonce for the temporary id, and whether the socket is OPEN. -/
structure SendEnv where
  currentChat : Option CurrentChat
  authUser : Option String
  now : Int
  nonce : String
  wsOpen : Bool

/-- Build a `SendEnv` positionally. -/
def mkSendEnv (currentChat : Option CurrentChat) (authUser : Option String)
    (now : Int) (nonce : String) (wsOpen : Bool) : SendEnv :=
  ⟨currentChat, authUser, now, nonce, wsOpen⟩

/-- `sendMessage` of the chat context (`ChatContext.tsx` lines 376–429):
if there is no current chat or no authenticated user it returns without
doing anything; otherwise it dispatches `ADD_MESSAGE` with the
optimistic temporary message and then hands the payload to
`websocketService.sendMessage`.  Returns the updated store and the
frames actually written to the wire. -/
def sendMessage (st : ChatStore) (env : SendEnv) (content mtype : String) :
    ChatStore × List OutFrame :=
  match env.currentChat, env.authUser with
  | some chat, some userId =>
      let optimistic := mkOptimistic userId content mtype env.now env.nonce
      ({ st with messages := addMessage st.messages optimistic },
       wsSendMessage env.wsOpen chat.ctype chat.id content mtype)
  | some _, none => (st, [])
  | none, _ => (st, [])

/-- The `MARK_CONVERSATION_READ` reducer case (`part_014` lines 142–151):
zero `unread_count` on the conversation whose `chat_type` and `chat_id`
match; leave every other conversation unchanged. -/
def markConversationReadReducer (convs : List Conversation)
    (chatType chatId : String) : List Conversation :=
  convs.map fun conv =>
    if conv.chat_type == chatType && conv.chat_id == chatId then
      { conv with unread_count := 0 }
    else conv

/-- `markConversationAsRead` of the chat context (`part_014` lines
397–409): it first awaits the REST call
`apiService.markConversationAsRead`; only when that call succeeds does
it dispatch `MARK_CONVERSATION_READ`; a failure is caught and logged,
and no dispatch happens.  `restSucceeds` is the outcome of the awaited
call. -/
def markConversationAsRead (convs : List Conversation)
    (chatType chatId : String) (restSucceeds : Bool) : List Conversation :=
  if restSucceeds then markConversationReadReducer convs chatType chatId
  else convs

/-- `setCurrentChat` of the chat context (`part_014` lines 505–531),
restricted to its room-membership bookkeeping: from the previous
`currentRoomRef.current` value and the new chat selection it computes
the new `currentRoomRef.current` value and the join/leave frames written
through `websocketService`.  Switching to a room leaves the previous
room (when different) and joins the new one; switching to a non-room
selection (or to no selection) leaves the previously joined room and
clears the record. -/
def setCurrentChat (currentRoom : Option String) (chat : Option CurrentChat)
    (wsOpen : Bool) : Option String × List OutFrame :=
  match chat with
  | some c =>
      if c.ctype = ChatType.room then
        let leaves :=
          match currentRoom with
          | some prev => if prev = c.id then [] else wsLeaveRoom wsOpen prev
          | none => []
        (some c.id, leaves ++ wsJoinRoom wsOpen c.id)
      else
        match currentRoom with
        | some prev => (none, wsLeaveRoom wsOpen prev)
        | none => (none, [])
  | none =>
      match currentRoom with
      | some prev => (none, wsLeaveRoom wsOpen prev)
      | none => (none, [])

/-- The effect at `part_014` lines 200–210 that mirrors
`state.currentChat` into `currentRoomRef` after every selection change:
the ref holds the room id when the current chat is a room, `null`
otherwise. -/
def syncRoomRef (currentChat : Option CurrentChat) : Option String :=
  match currentChat with
  | some c => if c.ctype = ChatType.room then some c.id else none
  | none => none

/-- Manual `joinRoom` of the chat context (`part_014` lines 540–544): it
writes the `join_room` frame and sets `currentRoomRef.current` to the
joined room unconditionally. -/
def manualJoinRoom (_currentRoom : Option String) (roomId : String)
    (wsOpen : Bool) : Option String × List OutFrame :=
  (some roomId, wsJoinRoom wsOpen roomId)

/-- Manual `leaveRoom` of the chat context (`part_014` lines 547–553): it
writes the `leave_room` frame and clears `currentRoomRef.current` when
it equals the room being left. -/
def manualLeaveRoom (currentRoom : Option String) (roomId : String)
    (wsOpen : Bool) : Option String × List OutFrame :=
  ((if currentRoom = some roomId then none else currentRoom),
   wsLeaveRoom wsOpen roomId)

/-- `WebSocket.readyState` values. -/
inductive ReadyState where
  | connecting
  | opened
  | closing
  | closed
  deriving DecidableEq, Repr

/-- The mutable fields of `WebSocketService` (`websocket.ts` lines
19–31).  The three JavaScript timers are modelled by their pending
deadlines (epoch ms) or, for the repeating heartbeat interval, by an
active flag; `ws` is `none` when the field is `null`, otherwise it
carries the socket's ready state. -/
structure WSService where
  ws : Option ReadyState
  reconnectAttempts : Nat
  isManuallyDisconnected : Bool
  heartbeatTicking : Bool
  heartbeatDeadline : Option Int
  connectionDeadline : Option Int
  isConnecting : Bool
  deriving DecidableEq, Repr

/-- `maxReconnectAttempts = 5` (`websocket.ts` line 22). -/
def maxReconnectAttempts : Nat := 5

/-- `reconnectDelay = 3000` ms (`websocket.ts` line 23). -/
def reconnectBaseDelay : Nat := 3000

/-- The 45000 ms heartbeat watchdog window (`websocket.ts` line 195). -/
def heartbeatWatchdogMs : Int := 45000

/-- Externally visible actions of the connection manager. -/
inductive Effect where
  | createSocket
  | closeSocket
  | scheduleReconnect (delay : Nat)
  | notifyConnection (connected : Bool)
  deriving DecidableEq, Repr

/-- `stopHeartbeat` (`websocket.ts` lines 172–181): clear the heartbeat
interval and the watchdog timeout. -/
def stopHeartbeat (s : WSService) : WSService :=
  { s with heartbeatTicking := false, heartbeatDeadline := none }

/-- `clearConnectionTimeout` (`websocket.ts` lines 150–155). -/
def clearConnTimeout (s : WSService) : WSService :=
  { s with connectionDeadline := none }

/-- `resetHeartbeatTimeout` (`websocket.ts` lines 184–196): re-arm the
45-second watchdog from the current time. -/
def resetHeartbeatTimeout (s : WSService) (now : Int) : WSService :=
  { s with heartbeatDeadline := some (now + heartbeatWatchdogMs) }

/-- `startHeartbeat` (`websocket.ts` lines 158–169): stop any previous
heartbeat, start the 30-second ping interval, arm the watchdog. -/
def startHeartbeat (s : WSService) (now : Int) : WSService :=
  resetHeartbeatTimeout { stopHeartbeat s with heartbeatTicking := true } now

/-- `cleanupConnection` (`websocket.ts` lines 131–137): close the socket
if it is not already closed, stop the heartbeat, clear the connection
timeout.  The `ws` field itself is not nulled here. -/
def cleanupConnection (s : WSService) : WSService × List Effect :=
  let closeEffs :=
    match s.ws with
    | some rs => if rs = ReadyState.closed then [] else [Effect.closeSocket]
    | none => []
  (clearConnTimeout (stopHeartbeat s), closeEffs)

/-- `connect` (`websocket.ts` lines 38–128): a no-op while already
connecting or open; an immediate failure notification when no access
token is available; otherwise it marks the service connecting, clears
the manual-disconnect flag, cleans up any previous connection, creates a
new socket in the CONNECTING state and arms the 10-second connection
timeout. -/
def connect (s : WSService) (hasToken : Bool) (now : Int) :
    WSService × List Effect :=
  if s.isConnecting then (s, [])
  else if s.ws = some ReadyState.connecting then (s, [])
  else if s.ws = some ReadyState.opened then (s, [])
  else if !hasToken then (s, [Effect.notifyConnection false])
  else
    let s1 := { s with isConnecting := true, isManuallyDisconnected := false }
    let cleaned := cleanupConnection s1
    let s2 := { cleaned.1 with ws := some ReadyState.connecting,
                               connectionDeadline := some (now + 10000) }
    (s2, cleaned.2 ++ [Effect.createSocket])

/-- The `ws.onopen` handler (`websocket.ts` lines 78–85): the socket is
now OPEN; reset the attempt counter, clear the connection timeout, start
the heartbeat, notify connected. -/
def onOpen (s : WSService) (now : Int) : WSService × List Effect :=
  let s1 := { s with ws := some ReadyState.opened, isConnecting := false,
                     reconnectAttempts := 0 }
  (startHeartbeat (clearConnTimeout s1) now, [Effect.notifyConnection true])

/-- `handleReconnect` (`websocket.ts` lines 210–225): while the retry
budget is not exhausted, increment the attempt counter and schedule a
reconnect after `min(reconnectDelay * 2^(attempts-1), 30000)` ms;
otherwise notify disconnected and schedule nothing. -/
def handleReconnect (s : WSService) : WSService × List Effect :=
  if s.reconnectAttempts < maxReconnectAttempts then
    let attempts := s.reconnectAttempts + 1
    let delay := min (reconnectBaseDelay * 2 ^ (attempts - 1)) 30000
    ({ s with reconnectAttempts := attempts }, [Effect.scheduleReconnect delay])
  else
    (s, [Effect.notifyConnection false])

/-- The `ws.onclose` handler (`websocket.ts` lines 105–116), fired on a
socket whose ready state has become CLOSED: stop the heartbeat, clear
the connection timeout, notify disconnected, and enter the reconnect
path unless the close was manual or carried the clean close code
1000. -/
def onClose (s : WSService) (code : Nat) : WSService × List Effect :=
  let s1 := clearConnTimeout (stopHeartbeat
    { s with isConnecting := false, ws := some ReadyState.closed })
  if s1.isManuallyDisconnected then (s1, [Effect.notifyConnection false])
  else if code = 1000 then (s1, [Effect.notifyConnection false])
  else
    let r := handleReconnect s1
    (r.1, Effect.notifyConnection false :: r.2)

/-- The firing of the watchdog armed by `resetHeartbeatTimeout`
(`websocket.ts` lines 190–195): when the deadline has passed with no
pong having re-armed it, close the socket; the one-shot timer is then
spent. -/
def heartbeatWatchdogFire (s : WSService) (now : Int) :
    WSService × List Effect :=
  match s.heartbeatDeadline with
  | some d =>
      if d ≤ now then
        match s.ws with
        | some _ => ({ s with heartbeatDeadline := none }, [Effect.closeSocket])
        | none => ({ s with heartbeatDeadline := none }, [])
      else (s, [])
  | none => (s, [])

/-- The `pong` branch of `ws.onmessage` (`websocket.ts` lines 92–96):
re-arm the heartbeat watchdog. -/
def onPong (s : WSService) (now : Int) : WSService :=
  resetHeartbeatTimeout s now

/-- `disconnect` (`websocket.ts` lines 331–338): set the
manual-disconnect flag, clean up the connection (close the socket, stop
the heartbeat and connection timers), null the socket field, notify
disconnected.  The service keeps no handle to a reconnect timer
scheduled by `handleReconnect`, so nothing here can cancel one. -/
def disconnect (s : WSService) : WSService × List Effect :=
  let s1 := { s with isManuallyDisconnected := true }
  let cleaned := cleanupConnection s1
  ({ cleaned.1 with ws := none },
   cleaned.2 ++ [Effect.notifyConnection false])

/-- The service state before any connection: all fields at their
initializers (`websocket.ts` lines 20–30). -/
def initialService : WSService :=
  { ws := none, reconnectAttempts := 0, isManuallyDisconnected := false,
    heartbeatTicking := false, heartbeatDeadline := none,
    connectionDeadline := none, isConnecting := false }

/-- The service state right after a successful `connect` followed by the
`onopen` event at time 0. -/
def openedService : WSService :=
  (onOpen (connect initialService true 0).1 0).1

/-- Apply `n` consecutive abnormal closes (close code 1006) to a
service state, collecting all effects in order. -/
def runAbnormalCloses (s : WSService) : Nat → WSService × List Effect
  | 0 => (s, [])
  | n + 1 =>
      let r := runAbnormalCloses s n
      let r2 := onClose r.1 1006
      (r2.1, r.2 ++ r2.2)

/-- A browser-level view for reconnect scheduling: the service state
plus whether a `setTimeout(() => this.connect(), delay)` callback from
`handleReconnect` is pending.  The code stores no timer id for it, so
only its own firing clears it. -/
structure WSWorld where
  svc : WSService
  pendingReconnect : Bool
  deriving DecidableEq, Repr

/-- Record in the world any reconnect scheduling among the effects. -/
def registerPending (pending : Bool) (effs : List Effect) : Bool :=
  pending || effs.any fun e =>
    match e with
    | Effect.scheduleReconnect _ => true
    | _ => false

/-- An abnormal close observed at the world level. -/
def worldOnClose (w : WSWorld) (code : Nat) : WSWorld × List Effect :=
  let r := onClose w.svc code
  ({ svc := r.1, pendingReconnect := registerPending w.pendingReconnect r.2 },
   r.2)

/-- `disconnect()` observed at the world level: the service cannot touch
the pending reconnect callback, so it stays pending. -/
def worldDisconnect (w : WSWorld) : WSWorld × List Effect :=
  let r := disconnect w.svc
  ({ svc := r.1, pendingReconnect := w.pendingReconnect }, r.2)

/-- The pending reconnect callback firing: it invokes `connect()` on the
current service state (`websocket.ts` lines 218–220). -/
def fireScheduledReconnect (w : WSWorld) (hasToken : Bool) (now : Int) :
    WSWorld × List Effect :=
  if w.pendingReconnect then
    let r := connect w.svc hasToken now
    ({ svc := r.1, pendingReconnect := registerPending false r.2 }, r.2)
  else (w, [])

/-- Whether a store entry represents a locally sent message, identified
as the spec does by its content and sender. -/
def representsSend (content userId : String) (e : Message) : Bool :=
  e.content == content && e.from_user_id == userId

/-! ### Helper lemmas -/

theorem isTemp_mkOptimistic (userId content mtype : String) (now : Int)
    (nonce : String) :
    (mkOptimistic userId content mtype now nonce).isTemp = true := by
  simp [mkOptimistic, Message.isTemp, tempTag]

theorem addMessage_skip_of_dup {msgs : List Message} {m : Message}
    (h : msgs.any (fun e => isDuplicateOf e m) = true) :
    addMessage msgs m = msgs := by
  simp [addMessage, h]

theorem addMessage_of_no_dup {msgs : List Message} {m : Message}
    (h : ∀ e ∈ msgs, isDuplicateOf e m = false) :
    addMessage msgs m =
      (if m.isTemp then msgs
       else msgs.filter (fun e => !(matchesTempOf m e))) ++ [m] := by
  have hany : msgs.any (fun e => isDuplicateOf e m) = false := by
    simp only [List.any_eq_false]
    intro e he
    simp [h e he]
  simp [addMessage, hany]

theorem isDuplicateOf_eq_false {e m : Message} {content userId : String}
    (hc : m.content = content) (hu : m.from_user_id = userId)
    (hid : e.id ≠ m.id)
    (hrep : representsSend content userId e = false) :
    isDuplicateOf e m = false := by
  subst hc; subst hu
  have h1 : (e.id == m.id) = false := by simp [hid]
  simp only [representsSend, Bool.and_eq_false_iff] at hrep
  rcases hrep with h | h <;> simp [isDuplicateOf, h1, h]

theorem matchesTempOf_eq_false {e m : Message} {content userId : String}
    (hc : m.content = content) (hu : m.from_user_id = userId)
    (hrep : representsSend content userId e = false) :
    matchesTempOf m e = false := by
  subst hc; subst hu
  simp only [representsSend, Bool.and_eq_false_iff] at hrep
  rcases hrep with h | h <;> simp [matchesTempOf, h]

theorem countP_not_add_countP {α : Type} (p : α → Bool) (l : List α) :
    l.countP (fun a => !(p a)) + l.countP p = l.length := by
  induction l with
  | nil => rfl
  | cons a t ih =>
      cases h : p a <;>
        simp [List.countP_cons, h, ← ih] <;> omega

/-! ### Claim theorems -/

/-- The optimistic message of a send of `"hi"` by user `"A"` at time 0. -/
def tempHi : Message :=
  { id := "temp_1", from_user_id := "A", content := "hi",
    message_type := "text", created_at := 0, is_edited := false }

/-- The server echo of that send, confirmed id `"m-42"`, arriving with a
`created_at` stamp 1000 ms after the optimistic one. -/
def echoHiNear : Message :=
  { id := "m-42", from_user_id := "A", content := "hi",
    message_type := "text", created_at := 1000, is_edited := false }

/-- Claim C2, counterexample: `echoHiNear` is a non-temporary message
whose content and sender match the existing temporary `tempHi`, yet the
`ADD_MESSAGE` reducer case leaves the list exactly as it was — the
temporary message is not removed and the confirmed id `"m-42"` is not
added — because the duplicate test (same content and sender within
3000 ms) fires before the promotion step ever runs. -/
theorem addMessage_echo_within_window_keeps_temp :
    Message.isTemp echoHiNear = false ∧
    matchesTempOf echoHiNear tempHi = true ∧
    addMessage [tempHi] echoHiNear = [tempHi] := by
  decide

/-- Claim C2, amended: when the `ADD_MESSAGE` case receives a
non-temporary message that no existing message counts as a duplicate of
(in particular, every matching temporary's `created_at` differs by at
least the 3000 ms window and its id differs), and exactly one existing
message is a matching temporary, then that temporary is removed and the
confirmed message appended: the length is unchanged, the confirmed
message is in the list, and no matching temporary remains. -/
theorem addMessage_promotion_outside_window
    {msgs : List Message} {m : Message}
    (htemp : m.isTemp = false)
    (hdup : ∀ e ∈ msgs, isDuplicateOf e m = false)
    (hone : msgs.countP (fun e => matchesTempOf m e) = 1) :
    (addMessage msgs m).length = msgs.length ∧
    m ∈ addMessage msgs m ∧
    ∀ e ∈ addMessage msgs m, matchesTempOf m e = false := by
  have hself : matchesTempOf m m = false := by
    simp [matchesTempOf, htemp]
  have hstep : addMessage msgs m =
      msgs.filter (fun e => !(matchesTempOf m e)) ++ [m] := by
    rw [addMessage_of_no_dup hdup, htemp]
    simp
  refine ⟨?_, ?_, ?_⟩
  · rw [hstep]
    have hlen : (msgs.filter (fun e => !(matchesTempOf m e))).length =
        msgs.countP (fun e => !(matchesTempOf m e)) := by
      simp [List.countP_eq_length_filter]
    have htot := countP_not_add_countP (fun e => matchesTempOf m e) msgs
    simp only [List.length_append, List.length_cons, List.length_nil, hlen]
    omega
  · rw [hstep]; simp
  · rw [hstep]
    intro e he
    rcases List.mem_append.mp he with h | h
    · have := List.mem_filter.mp h
      simpa using this.2
    · simp only [List.mem_singleton] at h
      subst h
      exact hself

/-- Witness for the amended claim C2 at a concrete input: a temporary
message stamped at time 0 and a confirmed echo stamped at 5000 ms. -/
def echoHiFar : Message :=
  { id := "m-42", from_user_id := "A", content := "hi",
    message_type := "text", created_at := 5000, is_edited := false }

theorem addMessage_promotion_outside_window_witness :
    (addMessage [tempHi] echoHiFar).length = 1 ∧
    echoHiFar ∈ addMessage [tempHi] echoHiFar ∧
    ∀ e ∈ addMessage [tempHi] echoHiFar, matchesTempOf echoHiFar e = false := by
  have h := @addMessage_promotion_outside_window [tempHi] echoHiFar
    (by decide) (by decide) (by decide)
  simpa using h

/-- The room conversation `general` with three unread messages. -/
def convGeneral : Conversation :=
  { chat_id := "general", chat_type := "room", name := "General",
    last_message := none, unread_count := 3 }

/-- Claim C8, counterexample: when the REST call fails,
`markConversationAsRead` leaves the conversation's unread counter at its
old value 3 — nothing was zeroed beforehand, because the dispatch of
`MARK_CONVERSATION_READ` is sequenced after the awaited REST call
succeeds, so the update is not optimistic. -/
theorem markConversationAsRead_failure_leaves_unread :
    markConversationAsRead [convGeneral] ("room") ("general") false =
      [convGeneral] ∧
    convGeneral.unread_count = 3 := by
  decide

/-- Claim C8, amended: `markConversationAsRead` zeroes the matching
conversation's local unread counter only after the REST call succeeds;
when the call fails, the failure is logged and the conversation list —
in particular the unread counter — is left entirely unchanged. -/
theorem markConversationAsRead_zeroes_only_on_success
    (convs : List Conversation) (chatType chatId : String) :
    markConversationAsRead convs chatType chatId false = convs ∧
    ∀ conv ∈ markConversationAsRead convs chatType chatId true,
      conv.chat_type = chatType → conv.chat_id = chatId →
        conv.unread_count = 0 := by
  constructor
  · rfl
  · intro conv hmem ht hi
    simp only [markConversationAsRead, if_pos, markConversationReadReducer]
      at hmem
    rcases List.mem_map.mp hmem with ⟨c0, hc0, hf⟩
    by_cases hcond : (c0.chat_type == chatType && c0.chat_id == chatId) = true
    · rw [if_pos hcond] at hf
      rw [← hf]
    · rw [if_neg hcond] at hf
      subst hf
      exact absurd (by simp [ht, hi]) hcond

theorem markConversationAsRead_zeroes_only_on_success_witness :
    markConversationAsRead [convGeneral] ("room") ("general") false =
      [convGeneral] :=
  (markConversationAsRead_zeroes_only_on_success
    [convGeneral] ("room") ("general")).1

/-- Claim C9, counterexample: a manual `joinRoom("lobby")` while no room
is recorded as joined sets `currentRoomRef.current` to `"lobby"` — the
currently-joined-room record is not left unchanged. -/
theorem manualJoinRoom_updates_room_record :
    (manualJoinRoom none ("lobby") true).1 = some ("lobby") ∧
    ¬ ((manualJoinRoom none ("lobby") true).1 = none) := by
  decide

/-- Claim C9, amended: manual `joinRoom` and `leaveRoom` do bypass the
leave-previous-room bookkeeping of `setCurrentChat` — a manual join
never emits a `leave_room` frame for the previously recorded room — but
they do update the currently-joined-room record: `joinRoom` sets it to
the joined room unconditionally, and `leaveRoom` clears it exactly when
it recorded the room being left. -/
theorem manual_room_calls_update_record
    (currentRoom : Option String) (roomId : String) (wsOpen : Bool) :
    (manualJoinRoom currentRoom roomId wsOpen).1 = some roomId ∧
    (manualLeaveRoom currentRoom roomId wsOpen).1 =
      (if currentRoom = some roomId then none else currentRoom) ∧
    (∀ prev : String,
      OutFrame.leaveRoomFrame prev ∉ (manualJoinRoom currentRoom roomId wsOpen).2) := by
  refine ⟨rfl, rfl, ?_⟩
  intro prev h
  simp only [manualJoinRoom, wsJoinRoom] at h
  cases wsOpen <;> simp_all

theorem manual_room_calls_update_record_witness :
    (manualJoinRoom (some ("general")) ("lobby") true).1 = some ("lobby") :=
  (manual_room_calls_update_record (some ("general")) ("lobby") true).1

/-- Claim C10: with a current chat and an authenticated user but the
socket not open, `sendMessage` still appends exactly one optimistic
message carrying a `temp_` id to the local list, writes nothing to the
wire, and records no error in the store. -/
theorem sendMessage_offline_optimistic_only
    (st : ChatStore) (chat : CurrentChat) (userId content mtype : String)
    (now : Int) (nonce : String)
    (hfresh : ∀ e ∈ st.messages,
        isDuplicateOf e (mkOptimistic userId content mtype now nonce) = false) :
    (sendMessage st (mkSendEnv (some chat) (some userId) now nonce false)
        content mtype).1.messages =
      st.messages ++ [mkOptimistic userId content mtype now nonce] ∧
    (mkOptimistic userId content mtype now nonce).isTemp = true ∧
    (sendMessage st (mkSendEnv (some chat) (some userId) now nonce false)
        content mtype).2 = [] ∧
    (sendMessage st (mkSendEnv (some chat) (some userId) now nonce false)
        content mtype).1.error = st.error := by
  have hmsgs : addMessage st.messages (mkOptimistic userId content mtype now nonce) =
      st.messages ++ [mkOptimistic userId content mtype now nonce] := by
    rw [addMessage_of_no_dup hfresh]
    simp [isTemp_mkOptimistic]
  refine ⟨?_, isTemp_mkOptimistic userId content mtype now nonce, ?_, ?_⟩
  · simpa [sendMessage, mkSendEnv] using hmsgs
  · simp [sendMessage, mkSendEnv, wsSendMessage]
  · simp [sendMessage, mkSendEnv]

theorem sendMessage_offline_optimistic_only_witness :
    (sendMessage ⟨[], [], none⟩
        (mkSendEnv (some ⟨"general", ChatType.room, "General"⟩)
          (some ("A")) 0 ("1") false)
        ("hi") ("text")).2 = [] :=
  (sendMessage_offline_optimistic_only ⟨[], [], none⟩
    ⟨"general", ChatType.room, "General"⟩
    ("A") ("hi") ("text") 0 ("1") (by decide)).2.2.1

/-- Claim C1: for a message sent locally via `sendMessage` — assuming
the visible list holds no prior entry with the same content and sender,
and the temporary and server ids are fresh — the visible list holds
exactly one entry representing it immediately after the send, and still
exactly one entry after the `ADD_MESSAGE` case processes the server
echo: whether the echo is swallowed by the duplicate window (the
temporary survives) or promotes the temporary (the confirmed entry
replaces it), the count is one, never zero and never two. -/
theorem sendMessage_exactly_once_visibility
    (st : ChatStore) (chat : CurrentChat) (userId content mtype : String)
    (now : Int) (nonce : String) (wsOpen : Bool) (echo : Message)
    (hnone : ∀ e ∈ st.messages, representsSend content userId e = false)
    (htid : ∀ e ∈ st.messages,
        e.id ≠ (mkOptimistic userId content mtype now nonce).id)
    (hec : echo.content = content) (hef : echo.from_user_id = userId)
    (het : echo.isTemp = false)
    (heid1 : echo.id ≠ (mkOptimistic userId content mtype now nonce).id)
    (heid2 : ∀ e ∈ st.messages, e.id ≠ echo.id) :
    ((sendMessage st (mkSendEnv (some chat) (some userId) now nonce wsOpen)
        content mtype).1.messages.countP
        (representsSend content userId) = 1) ∧
    ((addMessage (sendMessage st
        (mkSendEnv (some chat) (some userId) now nonce wsOpen)
        content mtype).1.messages echo).countP
        (representsSend content userId) = 1) := by
  have hrepopt : representsSend content userId
      (mkOptimistic userId content mtype now nonce) = true := by
    simp [representsSend, mkOptimistic]
  have hdup1 : ∀ e ∈ st.messages,
      isDuplicateOf e (mkOptimistic userId content mtype now nonce) = false := by
    intro e he
    exact isDuplicateOf_eq_false rfl rfl (htid e he) (hnone e he)
  have hmsgs1 : (sendMessage st
      (mkSendEnv (some chat) (some userId) now nonce wsOpen)
      content mtype).1.messages =
      st.messages ++ [mkOptimistic userId content mtype now nonce] := by
    simp only [sendMessage, mkSendEnv]
    rw [addMessage_of_no_dup hdup1]
    simp [isTemp_mkOptimistic]
  have hcount0 : st.messages.countP (representsSend content userId) = 0 :=
    List.countP_eq_zero.mpr (by intro e he; simp [hnone e he])
  have hcount1 : (st.messages ++
      [mkOptimistic userId content mtype now nonce]).countP
      (representsSend content userId) = 1 := by
    simp [List.countP_append, hcount0, List.countP_cons, hrepopt]
  have key2 : (addMessage (st.messages ++
      [mkOptimistic userId content mtype now nonce]) echo).countP
      (representsSend content userId) = 1 := by
    by_cases htime : ((now - echo.created_at).natAbs < 3000)
    · have hdupopt : isDuplicateOf
          (mkOptimistic userId content mtype now nonce) echo = true := by
        simp [isDuplicateOf, mkOptimistic, hec, hef, htime]
      have hany : (st.messages ++
          [mkOptimistic userId content mtype now nonce]).any
          (fun e => isDuplicateOf e echo) = true := by
        simp only [List.any_eq_true]
        exact ⟨mkOptimistic userId content mtype now nonce, by simp, hdupopt⟩
      rw [addMessage_skip_of_dup hany]
      exact hcount1
    · have hoptid : ((mkOptimistic userId content mtype now nonce).id
          == echo.id) = false := by
        simp [Ne.symm heid1]
      have hdup2 : ∀ e ∈ st.messages ++
          [mkOptimistic userId content mtype now nonce],
          isDuplicateOf e echo = false := by
        intro e he
        rcases List.mem_append.mp he with h | h
        · exact isDuplicateOf_eq_false hec hef (heid2 e h) (hnone e h)
        · simp only [List.mem_singleton] at h
          subst h
          simp only [isDuplicateOf, hoptid, Bool.false_or]
          simp [mkOptimistic, htime]
      have hstep2 : addMessage (st.messages ++
          [mkOptimistic userId content mtype now nonce]) echo =
          st.messages ++ [echo] := by
        rw [addMessage_of_no_dup hdup2]
        simp only [het, Bool.false_eq_true, if_false, List.filter_append]
        have hkeep : st.messages.filter
            (fun e => !(matchesTempOf echo e)) = st.messages := by
          rw [List.filter_eq_self]
          intro e he
          simp [matchesTempOf_eq_false hec hef (hnone e he)]
        have hm : matchesTempOf echo
            (mkOptimistic userId content mtype now nonce) = true := by
          simp [matchesTempOf, mkOptimistic, hec, hef,
            Message.isTemp, tempTag]
        have hdrop : ([mkOptimistic userId content mtype now nonce] :
            List Message).filter (fun e => !(matchesTempOf echo e)) = [] := by
          simp [hm]
        rw [hkeep, hdrop]
        simp
      rw [hstep2]
      simp [List.countP_append, hcount0, List.countP_cons, representsSend,
        hec, hef]
  exact ⟨hmsgs1 ▸ hcount1, hmsgs1 ▸ key2⟩

/-- Claim C3: starting with no room joined, selecting room `r1`, then
room `r2`, then private chat `p` emits exactly one `join_room(r1)`
during the first call; exactly one `leave_room(r1)` and one
`join_room(r2)` during the second; exactly one `leave_room(r2)` during
the third; and after the third call the currently-joined-room record is
`null`.  The record is a single optional value throughout, so at most
one room membership is ever held. -/
theorem setCurrentChat_membership_exclusivity
    (r1 r2 p : CurrentChat)
    (h1 : r1.ctype = ChatType.room) (h2 : r2.ctype = ChatType.room)
    (hp : p.ctype ≠ ChatType.room) (hne : r1.id ≠ r2.id) :
    (setCurrentChat none (some r1) true).1 = some r1.id ∧
    (setCurrentChat none (some r1) true).2 =
      [OutFrame.joinRoomFrame r1.id] ∧
    (setCurrentChat (setCurrentChat none (some r1) true).1
        (some r2) true).1 = some r2.id ∧
    (setCurrentChat (setCurrentChat none (some r1) true).1
        (some r2) true).2 =
      [OutFrame.leaveRoomFrame r1.id, OutFrame.joinRoomFrame r2.id] ∧
    (setCurrentChat (setCurrentChat (setCurrentChat none (some r1) true).1
        (some r2) true).1 (some p) true).2 =
      [OutFrame.leaveRoomFrame r2.id] ∧
    (setCurrentChat (setCurrentChat (setCurrentChat none (some r1) true).1
        (some r2) true).1 (some p) true).1 = none := by
  have s1 : setCurrentChat none (some r1) true =
      (some r1.id, [OutFrame.joinRoomFrame r1.id]) := by
    simp [setCurrentChat, h1, wsJoinRoom]
  have s2 : setCurrentChat (some r1.id) (some r2) true =
      (some r2.id,
       [OutFrame.leaveRoomFrame r1.id, OutFrame.joinRoomFrame r2.id]) := by
    simp [setCurrentChat, h2, wsJoinRoom, wsLeaveRoom, hne]
  have s3 : setCurrentChat (some r2.id) (some p) true =
      (none, [OutFrame.leaveRoomFrame r2.id]) := by
    simp [setCurrentChat, hp, wsLeaveRoom]
  simp [s1, s2, s3]

theorem setCurrentChat_membership_exclusivity_witness :
    (setCurrentChat (setCurrentChat (setCurrentChat none
        (some ⟨"r1", ChatType.room, "Room 1"⟩) true).1
        (some ⟨"r2", ChatType.room, "Room 2"⟩) true).1
        (some ⟨"u9", ChatType.priv, "Alice"⟩) true).1 = none :=
  (setCurrentChat_membership_exclusivity
    ⟨"r1", ChatType.room, "Room 1"⟩ ⟨"r2", ChatType.room, "Room 2"⟩
    ⟨"u9", ChatType.priv, "Alice"⟩
    rfl rfl (by decide) (by decide)).2.2.2.2.2

/-- Claim C6: `connect()` is a no-op while a connection attempt is in
progress or the socket is already open, and two `connect()` calls in
succession — whatever the starting state — create at most one socket
between them. -/
theorem connect_no_duplicate_sockets
    (s : WSService) (hasToken : Bool) (now1 now2 : Int) :
    ((s.isConnecting = true ∨ s.ws = some ReadyState.connecting ∨
        s.ws = some ReadyState.opened) →
      connect s hasToken now1 = (s, [])) ∧
    ((connect s hasToken now1).2 ++
        (connect (connect s hasToken now1).1 hasToken now2).2).count
      Effect.createSocket ≤ 1 := by
  constructor
  · rintro (h | h | h) <;> simp [connect, h]
  · by_cases hc : s.isConnecting = true
    · simp [connect, hc]
    · have hc2 : s.isConnecting = false := by
        simpa using hc
      by_cases h1 : s.ws = some ReadyState.connecting
      · simp [connect, hc2, h1]
      · by_cases h2 : s.ws = some ReadyState.opened
        · simp [connect, hc2, h1, h2]
        · by_cases ht : hasToken = true
          · simp only [connect, hc2, h1, h2, ht, cleanupConnection,
              stopHeartbeat, clearConnTimeout, Bool.not_true, if_false,
              if_true, Bool.false_eq_true, ite_false, ite_true]
            cases hws : s.ws with
            | none => simp [connect]
            | some rs => cases rs <;> simp_all [connect]
          · have ht2 : hasToken = false := by
              simpa using ht
            simp [connect, hc2, h1, h2, ht2]

theorem connect_no_duplicate_sockets_witness :
    connect (connect initialService true 0).1 true 5 =
      ((connect initialService true 0).1, []) ∧
    ((connect initialService true 0).2 ++
        (connect (connect initialService true 0).1 true 1).2).count
      Effect.createSocket ≤ 1 :=
  ⟨(connect_no_duplicate_sockets (connect initialService true 0).1 true 5 0).1
      (Or.inl (by decide)),
   (connect_no_duplicate_sockets initialService true 0 1).2⟩

/-- Claim C4: if the watchdog deadline armed 45 seconds after the
heartbeat was started or last reset passes with no pong having re-armed
it, the watchdog fires and closes the socket; the resulting abnormal
close (the browser reports code 1005 for an argumentless `close()`)
enters the reconnect path, and — with the manual-disconnect flag unset
and the retry budget not exhausted — exactly one reconnect attempt is
scheduled. -/
theorem heartbeat_watchdog_forces_close_and_reconnect
    (s : WSService) (t0 now : Int) (rs : ReadyState)
    (harm : s.heartbeatDeadline = some (t0 + heartbeatWatchdogMs))
    (hexp : t0 + heartbeatWatchdogMs ≤ now)
    (hws : s.ws = some rs)
    (hman : s.isManuallyDisconnected = false)
    (hbudget : s.reconnectAttempts < maxReconnectAttempts) :
    (heartbeatWatchdogFire s now).2 = [Effect.closeSocket] ∧
    (onClose (heartbeatWatchdogFire s now).1 1005).2 =
      [Effect.notifyConnection false,
       Effect.scheduleReconnect
         (min (reconnectBaseDelay * 2 ^ s.reconnectAttempts) 30000)] := by
  have h1 : heartbeatWatchdogFire s now =
      ({ s with heartbeatDeadline := none }, [Effect.closeSocket]) := by
    simp [heartbeatWatchdogFire, harm, hexp, hws]
  rw [h1]
  refine ⟨rfl, ?_⟩
  simp [onClose, stopHeartbeat, clearConnTimeout, hman, handleReconnect,
    hbudget, Nat.add_sub_cancel]

theorem heartbeat_watchdog_forces_close_and_reconnect_witness :
    (heartbeatWatchdogFire openedService 45000).2 = [Effect.closeSocket] ∧
    (onClose (heartbeatWatchdogFire openedService 45000).1 1005).2 =
      [Effect.notifyConnection false,
       Effect.scheduleReconnect
         (min (reconnectBaseDelay * 2 ^ openedService.reconnectAttempts)
           30000)] :=
  heartbeat_watchdog_forces_close_and_reconnect openedService 0 45000
    ReadyState.opened (by decide) (by decide) (by decide) (by decide)
    (by decide)

/-- Claim C5, counterexample: after exactly five consecutive abnormal
closes of a freshly opened connection — five being the configured
maximum number of reconnect attempts — the manager has not stopped: the
fifth close still schedules a reconnect attempt (with the capped
30000 ms delay).  The terminal state is only reached one close later. -/
theorem reconnect_fifth_close_still_schedules :
    Effect.scheduleReconnect 30000 ∈ (runAbnormalCloses openedService 5).2 ∧
    (runAbnormalCloses openedService 5).1.reconnectAttempts =
      maxReconnectAttempts := by
  decide

/-- Claim C5, amended: the manager stops permanently on the (N+1)-th
consecutive abnormal close — the initial drop plus N failed reconnect
attempts, N = 5: while the attempt counter is below 5, every abnormal
close schedules exactly one reconnect with delay
min(3000·2^attempts, 30000); once the counter has reached 5, an
abnormal close notifies a disconnected status and schedules nothing;
and no scheduled delay ever exceeds 30000 ms. -/
theorem reconnect_budget_and_backoff_bound
    (s : WSService) (code : Nat)
    (hman : s.isManuallyDisconnected = false) (hcode : code ≠ 1000) :
    (s.reconnectAttempts < maxReconnectAttempts →
      (onClose s code).2 = [Effect.notifyConnection false,
        Effect.scheduleReconnect
          (min (reconnectBaseDelay * 2 ^ s.reconnectAttempts) 30000)] ∧
      (onClose s code).1.reconnectAttempts = s.reconnectAttempts + 1) ∧
    (maxReconnectAttempts ≤ s.reconnectAttempts →
      (onClose s code).2 = [Effect.notifyConnection false,
        Effect.notifyConnection false] ∧
      (onClose s code).1.reconnectAttempts = s.reconnectAttempts) ∧
    (∀ d, Effect.scheduleReconnect d ∈ (onClose s code).2 → d ≤ 30000) := by
  refine ⟨?_, ?_, ?_⟩
  · intro hlt
    simp [onClose, stopHeartbeat, clearConnTimeout, hman, hcode,
      handleReconnect, hlt, Nat.add_sub_cancel]
  · intro hge
    have hnlt : ¬ s.reconnectAttempts < maxReconnectAttempts :=
      Nat.not_lt.mpr hge
    simp [onClose, stopHeartbeat, clearConnTimeout, hman, hcode,
      handleReconnect, hnlt]
  · intro d hd
    by_cases hlt : s.reconnectAttempts < maxReconnectAttempts
    · simp [onClose, stopHeartbeat, clearConnTimeout, hman, hcode,
        handleReconnect, hlt, Nat.add_sub_cancel] at hd
      exact hd ▸ Nat.min_le_right _ _
    · simp [onClose, stopHeartbeat, clearConnTimeout, hman, hcode,
        handleReconnect, hlt] at hd

theorem reconnect_budget_and_backoff_bound_witness :
    (onClose (runAbnormalCloses openedService 5).1 1006).2 =
      [Effect.notifyConnection false, Effect.notifyConnection false] ∧
    (onClose (runAbnormalCloses openedService 5).1 1006).1.reconnectAttempts =
      (runAbnormalCloses openedService 5).1.reconnectAttempts :=
  (reconnect_budget_and_backoff_bound (runAbnormalCloses openedService 5).1
    1006 (by decide) (by decide)).2.1 (by decide)

/-- The world state after an abnormal close of a freshly opened
connection: the close scheduled a reconnect callback. -/
def c7AfterClose : WSWorld := (worldOnClose ⟨openedService, false⟩ 1006).1

/-- The world state after the user then calls `disconnect()`. -/
def c7AfterDisconnect : WSWorld := (worldDisconnect c7AfterClose).1

/-- Claim C7 (the failing scenario, evaluated on the code): an abnormal
close schedules a reconnect; `disconnect()` then cancels the heartbeat
timers and sets the manual-disconnect flag — but the service keeps no
handle to the scheduled reconnect callback, and `connect()` never
consults the manual-disconnect flag (it resets it to `false`), so when
the callback fires after the disconnect it creates a fresh socket: a
connect attempt does happen without the user explicitly reconnecting. -/
theorem disconnect_leaves_scheduled_reconnect_live :
    c7AfterClose.pendingReconnect = true ∧
    c7AfterDisconnect.svc.heartbeatTicking = false ∧
    c7AfterDisconnect.svc.heartbeatDeadline = none ∧
    c7AfterDisconnect.svc.connectionDeadline = none ∧
    c7AfterDisconnect.svc.isManuallyDisconnected = true ∧
    c7AfterDisconnect.pendingReconnect = true ∧
    Effect.createSocket ∈
      (fireScheduledReconnect c7AfterDisconnect true 9999).2 ∧
    (fireScheduledReconnect
      c7AfterDisconnect true 9999).1.svc.isManuallyDisconnected = false := by
  decide

theorem sendMessage_exactly_once_visibility_witness :
    (addMessage (sendMessage ⟨[], [], none⟩
      (mkSendEnv (some ⟨"general", ChatType.room, "General"⟩)
        (some ("A")) 0 ("1") true)
      ("hi") ("text")).1.messages echoHiNear).countP
      (representsSend ("hi") ("A")) = 1 :=
  (sendMessage_exactly_once_visibility ⟨[], [], none⟩
    ⟨"general", ChatType.room, "General"⟩
    ("A") ("hi") ("text") 0 ("1") true echoHiNear
    (by decide) (by decide) (by decide) (by decide) (by decide)
    (by decide) (by decide)).2


